import Mathlib

/-!
A shallow embedding of `retargetAnimation` from `src/index.ts` of the
vrm-mixamo-retargeter repository.  Pure three.js math objects (quaternions,
vectors, scene nodes) are modelled over `ℚ`; the scene-graph getters
(`getWorldQuaternion`, `getWorldPosition`, `getObjectByName`,
`getNormalizedBoneNode`) are external three.js / three-vrm collaborators and
are modelled as attributes of the node structures.  The in-place mutation of
`track.values` and the two reusable scratch quaternions
(`restRotationInverse`, `parentRestWorldRotation`) are embedded by explicit
state passing.
-/

/-- Rational model of a three.js `Vector3`. -/
structure Vec3 where
  x : ℚ
  y : ℚ
  z : ℚ
  deriving DecidableEq

/-- Rational model of a three.js `Quaternion`; components are stored (and
flattened to arrays) in the order x, y, z, w, as `fromArray` / `toArray` do. -/
structure Quat where
  x : ℚ
  y : ℚ
  z : ℚ
  w : ℚ
  deriving DecidableEq

/-- The identity quaternion, `new THREE.Quaternion()`. -/
def Quat.identityQ : Quat := ⟨0, 0, 0, 1⟩

/-- three.js `Quaternion.multiplyQuaternions(a, b)` (the Hamilton product).
`a.multiply(b)` is `mul a b`; `a.premultiply(b)` is `mul b a`. -/
def Quat.mul (a b : Quat) : Quat :=
  ⟨ a.x * b.w + a.w * b.x + a.y * b.z - a.z * b.y,
    a.y * b.w + a.w * b.y + a.z * b.x - a.x * b.z,
    a.z * b.w + a.w * b.z + a.x * b.y - a.y * b.x,
    a.w * b.w - a.x * b.x - a.y * b.y - a.z * b.z ⟩

/-- three.js `Quaternion.invert()`: it conjugates in place (three.js assumes
unit length, so no division is performed). -/
def Quat.conjugate (q : Quat) : Quat := ⟨-q.x, -q.y, -q.z, q.w⟩

/-- Squared norm of a quaternion. -/
def Quat.normSq (q : Quat) : ℚ := q.x * q.x + q.y * q.y + q.z * q.z + q.w * q.w

/-- The true quaternion inverse (conjugate divided by the squared norm);
for unit quaternions it coincides with `Quat.conjugate`. -/
def Quat.inv (q : Quat) : Quat :=
  ⟨-q.x / q.normSq, -q.y / q.normSq, -q.z / q.normSq, q.w / q.normSq⟩

/-- Which three.js `KeyframeTrack` subclass a track is; the code dispatches on
`instanceof THREE.QuaternionKeyframeTrack` / `instanceof THREE.VectorKeyframeTrack`,
anything else falls through both branches. -/
inductive TrackKind where
  | quaternion
  | vector
  | other
  deriving DecidableEq

/-- A three.js `KeyframeTrack`: a name `"<node>.<property>"`, keyframe times,
and a flat values array (4 entries per sample for quaternion tracks, 3 for
vector tracks). -/
structure KeyframeTrack where
  name : String
  times : List ℚ
  values : List ℚ
  kind : TrackKind
  deriving DecidableEq

/-- A three.js `AnimationClip`. -/
structure AnimationClip where
  name : String
  duration : ℚ
  tracks : List KeyframeTrack
  deriving DecidableEq

/-- A joint node of the loaded FBX rig.  `worldQuaternion` models
`getWorldQuaternion` (the rest-pose world rotation, the rig being in rest
pose), `parentWorldQuaternion` models `parent?.getWorldQuaternion`,
`position` is the node's local position (`node.position`).  `worldPositionY`
models `getWorldPosition(..).y`; the code never reads it — it is carried only
so the spec's description of the hip-height measurement can be stated and
compared against the code. -/
structure RigNode where
  worldQuaternion : Quat
  parentWorldQuaternion : Option Quat
  position : Vec3
  worldPositionY : ℚ
  deriving DecidableEq

/-- The loaded FBX asset (`THREE.Group`): its animation clips and its named
scene-graph lookup `getObjectByName`.  `sceneWorldPositionY` models the world
position of the FBX scene root; the code never reads it — it exists only for
the spec-side hip-height definition. -/
structure FBXAsset where
  animations : List AnimationClip
  getObjectByName : String → Option RigNode
  sceneWorldPositionY : ℚ

/-- A normalized VRM humanoid bone node: its scene-graph `name` and the y
component of its world position (`getWorldPosition(_vec3).y`). -/
structure VRMBone where
  name : String
  worldPositionY : ℚ
  deriving DecidableEq

/-- The VRM humanoid: `getNormalizedBoneNode` maps a VRM bone name to the
normalized bone node, or null. -/
structure Humanoid where
  getNormalizedBoneNode : String → Option VRMBone

/-- The target VRM model: optional humanoid, the world y of `vrm.scene`, and
`vrm.meta?.metaVersion`. -/
structure VRM where
  humanoid : Option Humanoid
  sceneWorldPositionY : ℚ
  metaVersion : Option String

/-- `RetargetingOptions` with the source's defaults. -/
structure RetargetingOptions where
  customBoneMap : List (String × String) := []
  logWarnings : Bool := true
  animationClipName : String := "mixamo.com"

/-- The console messages the function can emit (its only warning channel). -/
inductive Warning where
  | clipNotFound (clipName : String)
  | scaleFailed
  | boneNotFound (vrmBoneName : String) (mixamoRigName : String)
  deriving DecidableEq

/-- The two reusable scratch quaternions allocated once before the track
loop (`restRotationInverse`, `parentRestWorldRotation`); they are mutated by
optional-chained calls, so a track whose rig node is missing sees the values
left by the previous track. -/
structure ScratchState where
  restRotationInverse : Quat
  parentRestWorldRotation : Quat
  deriving DecidableEq

/-- Result of processing a single track: the scratch state after the track,
the output track pushed to `tracks` (if any), the state of the input track
after the call (the code writes transformed quaternions back into
`track.values`), and the console warnings emitted. -/
structure TrackResult where
  scratch : ScratchState
  output : Option KeyframeTrack
  mutated : KeyframeTrack
  warnings : List Warning

/-- Accumulated result of the `clip.tracks.forEach` loop. -/
structure ProcessedTracks where
  outputs : List KeyframeTrack
  mutated : List KeyframeTrack
  warnings : List Warning

/-- The observable outcome of one `retargetAnimation` call: the returned
clip (or null), the console warnings, and the final state of the located
source clip's tracks (they alias the caller's FBX asset and are mutated in
place by the rotation branch). -/
structure RetargetRun where
  result : Option AnimationClip
  warnings : List Warning
  finalClipTracks : List KeyframeTrack

/-- The default Mixamo-name → VRM-bone-name table `mixamoVRMRigMap`. -/
def mixamoVRMRigMap : List (String × String) :=
  [ ("mixamorigHips", "hips"),
    ("mixamorigSpine", "spine"),
    ("mixamorigSpine1", "chest"),
    ("mixamorigSpine2", "upperChest"),
    ("mixamorigNeck", "neck"),
    ("mixamorigHead", "head"),
    ("mixamorigLeftShoulder", "leftShoulder"),
    ("mixamorigLeftArm", "leftUpperArm"),
    ("mixamorigLeftForeArm", "leftLowerArm"),
    ("mixamorigLeftHand", "leftHand"),
    ("mixamorigLeftHandThumb1", "leftThumbMetacarpal"),
    ("mixamorigLeftHandThumb2", "leftThumbProximal"),
    ("mixamorigLeftHandThumb3", "leftThumbDistal"),
    ("mixamorigLeftHandIndex1", "leftIndexProximal"),
    ("mixamorigLeftHandIndex2", "leftIndexIntermediate"),
    ("mixamorigLeftHandIndex3", "leftIndexDistal"),
    ("mixamorigLeftHandMiddle1", "leftMiddleProximal"),
    ("mixamorigLeftHandMiddle2", "leftMiddleIntermediate"),
    ("mixamorigLeftHandMiddle3", "leftMiddleDistal"),
    ("mixamorigLeftHandRing1", "leftRingProximal"),
    ("mixamorigLeftHandRing2", "leftRingIntermediate"),
    ("mixamorigLeftHandRing3", "leftRingDistal"),
    ("mixamorigLeftHandPinky1", "leftLittleProximal"),
    ("mixamorigLeftHandPinky2", "leftLittleIntermediate"),
    ("mixamorigLeftHandPinky3", "leftLittleDistal"),
    ("mixamorigRightShoulder", "rightShoulder"),
    ("mixamorigRightArm", "rightUpperArm"),
    ("mixamorigRightForeArm", "rightLowerArm"),
    ("mixamorigRightHand", "rightHand"),
    ("mixamorigRightHandPinky1", "rightLittleProximal"),
    ("mixamorigRightHandPinky2", "rightLittleIntermediate"),
    ("mixamorigRightHandPinky3", "rightLittleDistal"),
    ("mixamorigRightHandRing1", "rightRingProximal"),
    ("mixamorigRightHandRing2", "rightRingIntermediate"),
    ("mixamorigRightHandRing3", "rightRingDistal"),
    ("mixamorigRightHandMiddle1", "rightMiddleProximal"),
    ("mixamorigRightHandMiddle2", "rightMiddleIntermediate"),
    ("mixamorigRightHandMiddle3", "rightMiddleDistal"),
    ("mixamorigRightHandIndex1", "rightIndexProximal"),
    ("mixamorigRightHandIndex2", "rightIndexIntermediate"),
    ("mixamorigRightHandIndex3", "rightIndexDistal"),
    ("mixamorigRightHandThumb1", "rightThumbMetacarpal"),
    ("mixamorigRightHandThumb2", "rightThumbProximal"),
    ("mixamorigRightHandThumb3", "rightThumbDistal"),
    ("mixamorigLeftUpLeg", "leftUpperLeg"),
    ("mixamorigLeftLeg", "leftLowerLeg"),
    ("mixamorigLeftFoot", "leftFoot"),
    ("mixamorigLeftToeBase", "leftToes"),
    ("mixamorigRightUpLeg", "rightUpperLeg"),
    ("mixamorigRightLeg", "rightLowerLeg"),
    ("mixamorigRightFoot", "rightFoot"),
    ("mixamorigRightToeBase", "rightToes") ]

/-- The merged bone map `{ ...mixamoVRMRigMap, ...customBoneMap }`: a custom
entry wins on key collision. -/
def mergedBoneMap (customBoneMap : List (String × String)) (key : String) :
    Option String :=
  match customBoneMap.lookup key with
  | some v => some v
  | none => mixamoVRMRigMap.lookup key

/-- Split a character list at every occurrence of `c` (JavaScript
`String.prototype.split` on a one-character separator). -/
def splitOnCharAux (c : Char) : List Char → List (List Char)
  | [] => [[]]
  | a :: rest =>
    let r := splitOnCharAux c rest
    if a == c then [] :: r
    else
      match r with
      | [] => [[a]]
      | h :: t => (a :: h) :: t

/-- JavaScript `s.split('.')`. -/
def jsSplitDot (s : String) : List String :=
  (splitOnCharAux '.' s.toList).map (fun l => String.mk l)

/-- `track.name.split('.')[0]` — the Mixamo rig name of a track. -/
def mixamoRigNameOf (track : KeyframeTrack) : String :=
  (jsSplitDot track.name).headD ""

/-- `track.name.split('.')[1]` — the property name; a missing component
renders as the string "undefined" inside the template literal. -/
def propertyNameOf (track : KeyframeTrack) : String :=
  ((jsSplitDot track.name)[1]?).getD "undefined"

/-- `vrm.humanoid?.getNormalizedBoneNode(boneMap[mixamoRigName])?.name`:
the resolved target node name, or null when the bone is unmapped, the
humanoid is absent, or the humanoid lacks the bone. -/
def resolveVrmNodeName (vrm : VRM) (boneMap : String → Option String)
    (track : KeyframeTrack) : Option String :=
  ((boneMap (mixamoRigNameOf track)).bind fun b =>
    vrm.humanoid.bind fun h => h.getNormalizedBoneNode b).map (fun n => n.name)

/-- `vrm.meta?.metaVersion === '0'` — the older coordinate convention. -/
def isV0 (vrm : VRM) : Bool := vrm.metaVersion == some "0"

/-- JavaScript falsiness of an optional number: `!x` is true for undefined
and for 0 (NaN, also falsy, is not representable over ℚ). -/
def jsFalsyQ : Option ℚ → Bool
  | none => true
  | some v => v == 0

/-- JavaScript `array.map((v, i) => f i v)`, index made explicit. -/
def mapWithIndex (f : Nat → ℚ → ℚ) : Nat → List ℚ → List ℚ
  | _, [] => []
  | i, v :: vs => f i v :: mapWithIndex f (i + 1) vs

/-- Flatten quaternions to an array in `toArray` order x, y, z, w. -/
def quatsToFlat : List Quat → List ℚ
  | [] => []
  | q :: qs => q.x :: q.y :: q.z :: q.w :: quatsToFlat qs

/-- Flatten 3-vectors to an array in order x, y, z. -/
def vec3sToFlat : List Vec3 → List ℚ
  | [] => []
  | v :: vs => v.x :: v.y :: v.z :: vec3sToFlat vs

/-- The rotation write-back loop: for each 4-slice `q` of `track.values`,
`_quatA.fromArray(q).premultiply(parentRestWorldRotation).multiply(restRotationInverse)`
is written back over the slice.  Slices are disjoint and written after being
read, so the loop is a pure chunk map; a trailing fragment shorter than 4
(absent on well-formed tracks) is left as is. -/
def processRotValues (parentRest restInv : Quat) : List ℚ → List ℚ
  | x :: y :: z :: w :: rest =>
    let q := Quat.mul (Quat.mul parentRest ⟨x, y, z, w⟩) restInv
    q.x :: q.y :: q.z :: q.w :: processRotValues parentRest restInv rest
  | rest => rest

/-- One iteration of the `clip.tracks.forEach` loop (lines 129-192 of the
source): resolve the target node, update the scratch rest-pose quaternions
through the optional chain, dispatch on the track's runtime class, and
produce the pushed output track, the mutated input track, and the console
warnings. -/
def retargetTrack (fbxAsset : FBXAsset) (vrm : VRM)
    (boneMap : String → Option String) (logWarnings : Bool)
    (hipsPositionScale : ℚ) (st : ScratchState) (track : KeyframeTrack) :
    TrackResult :=
  let mixamoRigName := mixamoRigNameOf track
  let vrmBoneName := boneMap mixamoRigName
  let mixamoRigNode := fbxAsset.getObjectByName mixamoRigName
  match resolveVrmNodeName vrm boneMap track with
  | some vrmNodeName =>
    let propertyName := propertyNameOf track
    -- mixamoRigNode?.getWorldQuaternion(restRotationInverse).invert()
    let restRotationInverse :=
      match mixamoRigNode with
      | some node => node.worldQuaternion.conjugate
      | none => st.restRotationInverse
    -- mixamoRigNode?.parent?.getWorldQuaternion(parentRestWorldRotation)
    let parentRestWorldRotation :=
      match mixamoRigNode with
      | some node =>
        match node.parentWorldQuaternion with
        | some p => p
        | none => st.parentRestWorldRotation
      | none => st.parentRestWorldRotation
    let st' : ScratchState := ⟨restRotationInverse, parentRestWorldRotation⟩
    match track.kind with
    | TrackKind.quaternion =>
      let newValues := processRotValues parentRestWorldRotation restRotationInverse track.values
      let outValues :=
        mapWithIndex (fun i v => if isV0 vrm && i % 2 == 0 then -v else v) 0 newValues
      { scratch := st'
        output := some
          { name := vrmNodeName ++ "." ++ propertyName
            times := track.times
            values := outValues
            kind := TrackKind.quaternion }
        mutated := { track with values := newValues }
        warnings := [] }
    | TrackKind.vector =>
      let value :=
        mapWithIndex
          (fun i v => (if isV0 vrm && i % 3 != 1 then -v else v) * hipsPositionScale)
          0 track.values
      { scratch := st'
        output := some
          { name := vrmNodeName ++ "." ++ propertyName
            times := track.times
            values := value
            kind := TrackKind.vector }
        mutated := track
        warnings := [] }
    | TrackKind.other =>
      { scratch := st', output := none, mutated := track, warnings := [] }
  | none =>
    { scratch := st
      output := none
      mutated := track
      warnings :=
        if logWarnings && (match vrmBoneName with
          | some b => !(b == "")
          | none => false) then
          [Warning.boneNotFound (vrmBoneName.getD "") mixamoRigName]
        else [] }

/-- `THREE.AnimationClip.findByName(clips, name)`: the first clip whose name
matches. -/
def findByName (clips : List AnimationClip) (clipName : String) :
    Option AnimationClip :=
  clips.find? (fun c => c.name == clipName)

/-- Lines 112-127 of the source: `motionHipsHeight` is the **local**
`position.y` of the FBX `mixamorigHips` node; `vrmHipsY` is the world y of
the VRM hips bone; the call fails when either is JS-falsy; otherwise the
scale is `|vrmHipsY - vrmRootY| / motionHipsHeight`. -/
def computeHipsScale (fbxAsset : FBXAsset) (vrm : VRM) : Option ℚ :=
  let motionHipsHeight := (fbxAsset.getObjectByName "mixamorigHips").map (fun n => n.position.y)
  let vrmHipsY := (vrm.humanoid.bind fun h => h.getNormalizedBoneNode "hips").map
    (fun b => b.worldPositionY)
  let vrmRootY := vrm.sceneWorldPositionY
  if jsFalsyQ vrmHipsY || jsFalsyQ motionHipsHeight then none
  else
    let vrmHipsHeight := abs (vrmHipsY.getD 0 - vrmRootY)
    some (vrmHipsHeight / motionHipsHeight.getD 0)

/-- Modelled from the spec (§4.3), for comparison with `computeHipsScale`:
each hip height is the vertical offset of the rig's root/hip joint's world
position from that rig's own scene-root world position, measured this way
for both rigs, and the scale is targetHipHeight / sourceHipHeight. -/
def computeHipsScaleSpec (fbxAsset : FBXAsset) (vrm : VRM) : Option ℚ :=
  match fbxAsset.getObjectByName "mixamorigHips",
      vrm.humanoid.bind fun h => h.getNormalizedBoneNode "hips" with
  | some srcHips, some tgtHips =>
    let sourceHipHeight := abs (srcHips.worldPositionY - fbxAsset.sceneWorldPositionY)
    let targetHipHeight := abs (tgtHips.worldPositionY - vrm.sceneWorldPositionY)
    if sourceHipHeight = 0 ∨ targetHipHeight = 0 then none
    else some (targetHipHeight / sourceHipHeight)
  | _, _ => none

/-- Modelled from the spec's words for C4: negate the quaternion's w and y
components of every keyframe (indices 1 and 3 within each x, y, z, w
4-tuple). -/
def negateWYComponents (vals : List ℚ) : List ℚ :=
  mapWithIndex (fun i v => if i % 4 == 1 || i % 4 == 3 then -v else v) 0 vals

/-- The `clip.tracks.forEach` loop, threading the scratch quaternions in
track order and collecting pushed outputs, mutated inputs and warnings. -/
def processTracks (fbxAsset : FBXAsset) (vrm : VRM)
    (boneMap : String → Option String) (logWarnings : Bool)
    (hipsPositionScale : ℚ) : ScratchState → List KeyframeTrack → ProcessedTracks
  | _, [] => ⟨[], [], []⟩
  | st, t :: ts =>
    let r := retargetTrack fbxAsset vrm boneMap logWarnings hipsPositionScale st t
    let rest := processTracks fbxAsset vrm boneMap logWarnings hipsPositionScale r.scratch ts
    ⟨r.output.toList ++ rest.outputs, r.mutated :: rest.mutated, r.warnings ++ rest.warnings⟩

/-- The whole `retargetAnimation` function (lines 84-201 of the source):
merge the bone map, locate the clip, compute the hip scale, process every
track, and assemble `new THREE.AnimationClip('vrmAnimation', clip.duration, tracks)`.
Under the modelled (total) inputs no exception is raised, so the
try/catch wrapper adds no behavior. -/
def retargetAnimation (fbxAsset : FBXAsset) (vrm : VRM)
    (options : RetargetingOptions) : RetargetRun :=
  let boneMap := mergedBoneMap options.customBoneMap
  match findByName fbxAsset.animations options.animationClipName with
  | none =>
    { result := none
      warnings := if options.logWarnings then [Warning.clipNotFound options.animationClipName] else []
      finalClipTracks := [] }
  | some clip =>
    match computeHipsScale fbxAsset vrm with
    | none =>
      { result := none
        warnings := if options.logWarnings then [Warning.scaleFailed] else []
        finalClipTracks := clip.tracks }
    | some hipsPositionScale =>
      let pt := processTracks fbxAsset vrm boneMap options.logWarnings hipsPositionScale
        ⟨Quat.identityQ, Quat.identityQ⟩ clip.tracks
      { result := some ⟨"vrmAnimation", clip.duration, pt.outputs⟩
        warnings := pt.warnings
        finalClipTracks := pt.mutated }

/-- Identity quaternion value used by the concrete inputs below. -/
def qIdEx : Quat := ⟨0, 0, 0, 1⟩

/-- A non-identity unit quaternion (180 degrees about x) used as a rest
rotation by the concrete inputs below. -/
def qXEx : Quat := ⟨1, 0, 0, 0⟩

/-- Humanoid bone table of the concrete target VRM. -/
def exBones : List (String × VRMBone) :=
  [("hips", ⟨"Hips", 135⟩), ("spine", ⟨"SpineN", 1⟩), ("neck", ⟨"NeckN", 2⟩)]

/-- Humanoid of the concrete target VRM. -/
def exHumanoid : Humanoid := ⟨fun b => exBones.lookup b⟩

/-- Concrete modern-convention target VRM: hips world y 135, scene root y 0. -/
def exVrm : VRM :=
  { humanoid := some exHumanoid, sceneWorldPositionY := 0, metaVersion := some "1" }

/-- The same target VRM under the older coordinate convention. -/
def exVrm0 : VRM := { exVrm with metaVersion := some "0" }

/-- Concrete FBX hips node: local y 90 (equal to its world y here). -/
def hipsNodeEx : RigNode :=
  { worldQuaternion := qIdEx, parentWorldQuaternion := some qIdEx,
    position := ⟨0, 90, 0⟩, worldPositionY := 90 }

/-- Concrete FBX spine node with a non-identity rest world rotation. -/
def spineNodeEx : RigNode :=
  { worldQuaternion := qXEx, parentWorldQuaternion := some qIdEx,
    position := ⟨0, 1, 0⟩, worldPositionY := 1 }

/-- Concrete FBX spine node whose rest world rotation is the identity. -/
def spineNodeIdEx : RigNode :=
  { worldQuaternion := qIdEx, parentWorldQuaternion := some qIdEx,
    position := ⟨0, 1, 0⟩, worldPositionY := 1 }

/-- A rotation track on the spine joint with the single sample (0, 1, 0, 0). -/
def trackSpineRot : KeyframeTrack :=
  { name := "mixamorigSpine.quaternion", times := [0],
    values := quatsToFlat [⟨0, 1, 0, 0⟩], kind := TrackKind.quaternion }

/-- Scene lookup of the concrete FBX asset: hips and spine exist, nothing
else does. -/
def exLookup : String → Option RigNode := fun s =>
  if s == "mixamorigHips" then some hipsNodeEx
  else if s == "mixamorigSpine" then some spineNodeEx
  else none

/-- Concrete clip holding only the spine rotation track. -/
def exClip2 : AnimationClip :=
  { name := "mixamo.com", duration := 1, tracks := [trackSpineRot] }

/-- Concrete FBX asset holding `exClip2`. -/
def exFbx2 : FBXAsset :=
  { animations := [exClip2], getObjectByName := exLookup, sceneWorldPositionY := 0 }

/-- Rotation track for the neck joint with the identity sample. -/
def trackNeckRot : KeyframeTrack :=
  { name := "mixamorigNeck.quaternion", times := [0],
    values := quatsToFlat [⟨0, 0, 0, 1⟩], kind := TrackKind.quaternion }

/-- Clip for the stale-rest-pose scenario: first the spine track (joint
present in the rig), then the neck track (joint absent from the rig). -/
def exClip8 : AnimationClip :=
  { name := "mixamo.com", duration := 1, tracks := [trackSpineRot, trackNeckRot] }

/-- FBX asset holding `exClip8`; its scene lookup has no neck node. -/
def exFbx8 : FBXAsset :=
  { animations := [exClip8], getObjectByName := exLookup, sceneWorldPositionY := 0 }

/-- Rotation track whose rig name has no entry in the bone map. -/
def trackUnknownRot : KeyframeTrack :=
  { name := "unknownBone.quaternion", times := [0],
    values := quatsToFlat [⟨0, 0, 0, 1⟩], kind := TrackKind.quaternion }

/-- Clip with one mapped track and one unmapped track. -/
def exClip5 : AnimationClip :=
  { name := "mixamo.com", duration := 1, tracks := [trackSpineRot, trackUnknownRot] }

/-- FBX asset holding `exClip5`. -/
def exFbx5 : FBXAsset :=
  { animations := [exClip5], getObjectByName := exLookup, sceneWorldPositionY := 0 }

/-- A spine rotation track with the raw sample array (1, 2, 3, 4). -/
def trackSpine1234 : KeyframeTrack :=
  { name := "mixamorigSpine.quaternion", times := [0],
    values := [1, 2, 3, 4], kind := TrackKind.quaternion }

/-- Scene lookup whose spine node carries identity rest rotations, so the
rest-pose transform leaves samples unchanged. -/
def exLookupIdSpine : String → Option RigNode := fun s =>
  if s == "mixamorigHips" then some hipsNodeEx
  else if s == "mixamorigSpine" then some spineNodeIdEx
  else none

/-- Clip holding only `trackSpine1234`. -/
def exClip4 : AnimationClip :=
  { name := "mixamo.com", duration := 1, tracks := [trackSpine1234] }

/-- FBX asset holding `exClip4`. -/
def exFbx4 : FBXAsset :=
  { animations := [exClip4], getObjectByName := exLookupIdSpine, sceneWorldPositionY := 0 }

/-- Hips node whose local y (2) differs from its world y (1). -/
def hipsNodeOffsetEx : RigNode :=
  { worldQuaternion := qIdEx, parentWorldQuaternion := some qIdEx,
    position := ⟨0, 2, 0⟩, worldPositionY := 1 }

/-- FBX rig whose hips' local y and world-offset y disagree. -/
def exFbx3 : FBXAsset :=
  { animations := [],
    getObjectByName := fun s => if s == "mixamorigHips" then some hipsNodeOffsetEx else none,
    sceneWorldPositionY := 0 }

/-- Target VRM with hips world y 3 over scene root y 0. -/
def exVrm3 : VRM :=
  { humanoid := some ⟨fun b => if b == "hips" then some ⟨"Hips", 3⟩ else none⟩,
    sceneWorldPositionY := 0, metaVersion := none }

/-- FBX asset for the scale-failure scenario (hips present, local y 90). -/
def exFbx6 : FBXAsset :=
  { animations := [{ name := "mixamo.com", duration := 1, tracks := [trackSpineRot] }],
    getObjectByName := exLookup, sceneWorldPositionY := 0 }

/-- Target VRM whose hips world y is 0 while its scene root sits at y -1:
the hip height is 1, yet the raw world y is JS-falsy. -/
def exVrm6 : VRM :=
  { humanoid := some ⟨fun b => if b == "hips" then some ⟨"Hips", 0⟩ else none⟩,
    sceneWorldPositionY := -1, metaVersion := none }

/-- Hips position track with the single sample (0, 10, 0). -/
def trackHipsPos : KeyframeTrack :=
  { name := "mixamorigHips.position", times := [0],
    values := [0, 10, 0], kind := TrackKind.vector }

/-- Clip holding only the hips position track. -/
def exClip7 : AnimationClip :=
  { name := "mixamo.com", duration := 1, tracks := [trackHipsPos] }

/-- FBX asset holding `exClip7`; its hips local y is 90 against the VRM hip
height 135, so the resolved scale is 3/2. -/
def exFbx7 : FBXAsset :=
  { animations := [exClip7], getObjectByName := exLookup, sceneWorldPositionY := 0 }

/-- A trackless clip with duration 7. -/
def exClip10 : AnimationClip := { name := "mixamo.com", duration := 7, tracks := [] }

/-- FBX asset holding `exClip10`. -/
def exFbx10 : FBXAsset :=
  { animations := [exClip10], getObjectByName := exLookup, sceneWorldPositionY := 0 }

/-- A track of a kind that is neither quaternion nor vector, on a mapped,
resolvable joint. -/
def trackSpineOther : KeyframeTrack :=
  { name := "mixamorigSpine.morphTargetInfluences", times := [0],
    values := [5], kind := TrackKind.other }

theorem processRotValues_flat (parentRest restInv : Quat) (qs : List Quat) :
    processRotValues parentRest restInv (quatsToFlat qs)
      = quatsToFlat (qs.map fun q => (parentRest.mul q).mul restInv) := by
  induction qs with
  | nil => rfl
  | cons q qs ih => simp [quatsToFlat, processRotValues, ih]

theorem conjugate_eq_inv_of_unit (q : Quat) (h : q.normSq = 1) :
    q.conjugate = q.inv := by
  simp [Quat.conjugate, Quat.inv, h]

theorem quatsToFlat_length (qs : List Quat) :
    (quatsToFlat qs).length = 4 * qs.length := by
  induction qs with
  | nil => rfl
  | cons q qs ih => simp [quatsToFlat, ih]; omega

theorem mapWithIndex_length (f : Nat → ℚ → ℚ) :
    ∀ (i : Nat) (l : List ℚ), (mapWithIndex f i l).length = l.length
  | _, [] => rfl
  | i, _ :: vs => by simp [mapWithIndex, mapWithIndex_length f (i + 1) vs]

theorem mapWithIndex_quat_even (b : Bool) (qs : List Quat) :
    ∀ (i : Nat), i % 2 = 0 →
      mapWithIndex (fun j v => if b && j % 2 == 0 then -v else v) i (quatsToFlat qs)
        = quatsToFlat (qs.map fun q => if b then ⟨-q.x, q.y, -q.z, q.w⟩ else q) := by
  induction qs with
  | nil => intro i _; rfl
  | cons q qs ih =>
    intro i hi
    have h1 : (i + 1) % 2 = 1 := by omega
    have h2 : (i + 1 + 1) % 2 = 0 := by omega
    have h3 : (i + 1 + 1 + 1) % 2 = 1 := by omega
    have h4 : (i + 1 + 1 + 1 + 1) % 2 = 0 := by omega
    cases b with
    | false =>
      simp [quatsToFlat, mapWithIndex]
      simpa using ih _ h4
    | true =>
      simp [quatsToFlat, mapWithIndex, hi, h1, h2, h3]
      simpa using ih _ h4

theorem mapWithIndex_vec3_scale (b : Bool) (s : ℚ) (vs : List Vec3) :
    ∀ (i : Nat), i % 3 = 0 →
      mapWithIndex (fun j v => (if b && j % 3 != 1 then -v else v) * s) i (vec3sToFlat vs)
        = vec3sToFlat (vs.map fun p =>
            if b then ⟨-p.x * s, p.y * s, -p.z * s⟩ else ⟨p.x * s, p.y * s, p.z * s⟩) := by
  induction vs with
  | nil => intro i _; rfl
  | cons p vs ih =>
    intro i hi
    have h1 : (i + 1) % 3 = 1 := by omega
    have h2 : (i + 1 + 1) % 3 = 2 := by omega
    have h3 : (i + 1 + 1 + 1) % 3 = 0 := by omega
    cases b with
    | false =>
      simp [vec3sToFlat, mapWithIndex]
      simpa using ih _ h3
    | true =>
      simp [vec3sToFlat, mapWithIndex, hi, h1, h2]
      simpa using ih _ h3

/-- C1: for every rotation track that is retargeted and whose source joint
(with its parent) resolves in the source rig, every keyframe quaternion q of
the track is replaced, before any coordinate-convention correction (these
are exactly the values written back into the track), by
P_rest * q * R_rest⁻¹, where R_rest is the joint's rest-world rotation (a
unit quaternion) and P_rest the parent's rest-world rotation; the transform
is applied independently per sample, and the output track keeps exactly the
input track's keyframe times and sample count. -/
theorem rotation_track_retarget
    (fbx : FBXAsset) (vrm : VRM) (boneMap : String → Option String)
    (lw : Bool) (s : ℚ) (st : ScratchState) (t : KeyframeTrack)
    (node : RigNode) (pRest : Quat) (nm : String) (qs : List Quat)
    (hkind : t.kind = TrackKind.quaternion)
    (hres : resolveVrmNodeName vrm boneMap t = some nm)
    (hnode : fbx.getObjectByName (mixamoRigNameOf t) = some node)
    (hpar : node.parentWorldQuaternion = some pRest)
    (hunit : node.worldQuaternion.normSq = 1)
    (hvals : t.values = quatsToFlat qs) :
    ∃ out, (retargetTrack fbx vrm boneMap lw s st t).output = some out
      ∧ (retargetTrack fbx vrm boneMap lw s st t).mutated.values
          = quatsToFlat (qs.map fun q => (pRest.mul q).mul node.worldQuaternion.inv)
      ∧ out.times = t.times
      ∧ out.values.length = t.values.length := by
  have hconj : node.worldQuaternion.conjugate = node.worldQuaternion.inv :=
    conjugate_eq_inv_of_unit _ hunit
  have hval2 : processRotValues pRest node.worldQuaternion.conjugate t.values
      = quatsToFlat (qs.map fun q => (pRest.mul q).mul node.worldQuaternion.inv) := by
    rw [hvals, processRotValues_flat, hconj]
  simp only [retargetTrack, hres, hnode, hpar, hkind]
  refine ⟨_, rfl, hval2, rfl, ?_⟩
  rw [mapWithIndex_length, hval2, hvals]
  simp [quatsToFlat_length]

/-- Witness for C1: the spine rotation track of the concrete asset. -/
theorem rotation_track_retarget_witness :
    trackSpineRot.kind = TrackKind.quaternion
  ∧ resolveVrmNodeName exVrm (mergedBoneMap []) trackSpineRot = some "SpineN"
  ∧ exFbx2.getObjectByName (mixamoRigNameOf trackSpineRot) = some spineNodeEx
  ∧ spineNodeEx.parentWorldQuaternion = some qIdEx
  ∧ spineNodeEx.worldQuaternion.normSq = 1
  ∧ trackSpineRot.values = quatsToFlat [⟨0, 1, 0, 0⟩]
  ∧ ∃ out,
      (retargetTrack exFbx2 exVrm (mergedBoneMap []) true 1
          ⟨Quat.identityQ, Quat.identityQ⟩ trackSpineRot).output = some out
      ∧ (retargetTrack exFbx2 exVrm (mergedBoneMap []) true 1
          ⟨Quat.identityQ, Quat.identityQ⟩ trackSpineRot).mutated.values
          = quatsToFlat ([⟨0, 1, 0, 0⟩].map fun q =>
              (qIdEx.mul q).mul spineNodeEx.worldQuaternion.inv)
      ∧ out.times = trackSpineRot.times
      ∧ out.values.length = trackSpineRot.values.length :=
  ⟨rfl,
   by simp [resolveVrmNodeName, mergedBoneMap, mixamoVRMRigMap, mixamoRigNameOf,
      jsSplitDot, splitOnCharAux, exVrm, exHumanoid, exBones, trackSpineRot, List.lookup],
   by simp [exFbx2, exLookup, mixamoRigNameOf, jsSplitDot, splitOnCharAux, trackSpineRot],
   rfl,
   by norm_num [Quat.normSq, spineNodeEx, qXEx],
   rfl,
   rotation_track_retarget exFbx2 exVrm (mergedBoneMap []) true 1
     ⟨Quat.identityQ, Quat.identityQ⟩ trackSpineRot spineNodeEx qIdEx "SpineN" [⟨0, 1, 0, 0⟩]
     rfl
     (by simp [resolveVrmNodeName, mergedBoneMap, mixamoVRMRigMap, mixamoRigNameOf,
        jsSplitDot, splitOnCharAux, exVrm, exHumanoid, exBones, trackSpineRot, List.lookup])
     (by simp [exFbx2, exLookup, mixamoRigNameOf, jsSplitDot, splitOnCharAux, trackSpineRot])
     rfl
     (by norm_num [Quat.normSq, spineNodeEx, qXEx])
     rfl⟩

/-- C9: a track whose bone is mapped and whose target joint resolves, but
whose runtime class is neither a quaternion nor a vector keyframe track, is
silently dropped: it produces no output track and no warning of any kind. -/
theorem other_kind_track_dropped
    (fbx : FBXAsset) (vrm : VRM) (boneMap : String → Option String)
    (lw : Bool) (s : ℚ) (st : ScratchState) (t : KeyframeTrack) (nm : String)
    (hres : resolveVrmNodeName vrm boneMap t = some nm)
    (hkind : t.kind = TrackKind.other) :
    (retargetTrack fbx vrm boneMap lw s st t).output = none
      ∧ (retargetTrack fbx vrm boneMap lw s st t).warnings = [] := by
  simp [retargetTrack, hres, hkind]

/-- Witness for C9: a morph-target track on the resolvable spine joint. -/
theorem other_kind_track_dropped_witness :
    resolveVrmNodeName exVrm (mergedBoneMap []) trackSpineOther = some "SpineN"
  ∧ trackSpineOther.kind = TrackKind.other
  ∧ (retargetTrack exFbx2 exVrm (mergedBoneMap []) true 1
      ⟨Quat.identityQ, Quat.identityQ⟩ trackSpineOther).output = none
  ∧ (retargetTrack exFbx2 exVrm (mergedBoneMap []) true 1
      ⟨Quat.identityQ, Quat.identityQ⟩ trackSpineOther).warnings = [] :=
  ⟨by simp [resolveVrmNodeName, mergedBoneMap, mixamoVRMRigMap, mixamoRigNameOf,
      jsSplitDot, splitOnCharAux, exVrm, exHumanoid, exBones, trackSpineOther, List.lookup],
   rfl,
   (other_kind_track_dropped exFbx2 exVrm (mergedBoneMap []) true 1
      ⟨Quat.identityQ, Quat.identityQ⟩ trackSpineOther "SpineN"
      (by simp [resolveVrmNodeName, mergedBoneMap, mixamoVRMRigMap, mixamoRigNameOf,
         jsSplitDot, splitOnCharAux, exVrm, exHumanoid, exBones, trackSpineOther, List.lookup])
      rfl).1,
   (other_kind_track_dropped exFbx2 exVrm (mergedBoneMap []) true 1
      ⟨Quat.identityQ, Quat.identityQ⟩ trackSpineOther "SpineN"
      (by simp [resolveVrmNodeName, mergedBoneMap, mixamoVRMRigMap, mixamoRigNameOf,
         jsSplitDot, splitOnCharAux, exVrm, exHumanoid, exBones, trackSpineOther, List.lookup])
      rfl).2⟩

/-- C10: every successful call returns a clip literally named
"vrmAnimation", regardless of the source clip's name and of the
animationClipName option, and its duration is the located source clip's
duration. -/
theorem output_clip_name_duration
    (fbx : FBXAsset) (vrm : VRM) (opts : RetargetingOptions) (c : AnimationClip)
    (h : (retargetAnimation fbx vrm opts).result = some c) :
    c.name = "vrmAnimation"
      ∧ ∃ clip, findByName fbx.animations opts.animationClipName = some clip
          ∧ c.duration = clip.duration := by
  unfold retargetAnimation at h
  cases hc : findByName fbx.animations opts.animationClipName with
  | none => rw [hc] at h; simp at h
  | some clip =>
    rw [hc] at h
    cases hs : computeHipsScale fbx vrm with
    | none => rw [hs] at h; simp at h
    | some s =>
      rw [hs] at h
      simp only [Option.some.injEq] at h
      exact ⟨by rw [← h], clip, rfl, by rw [← h]⟩

/-- Witness for C10: the trackless clip of duration 7. -/
theorem output_clip_name_duration_witness :
    (retargetAnimation exFbx10 exVrm {}).result = some ⟨"vrmAnimation", 7, []⟩
  ∧ AnimationClip.name ⟨"vrmAnimation", 7, []⟩ = "vrmAnimation"
  ∧ ∃ clip, findByName exFbx10.animations
        ({} : RetargetingOptions).animationClipName = some clip
      ∧ AnimationClip.duration ⟨"vrmAnimation", 7, []⟩ = clip.duration :=
  ⟨by simp [retargetAnimation, findByName, computeHipsScale, exFbx10, exClip10, exLookup,
      exVrm, exHumanoid, exBones, hipsNodeEx, jsFalsyQ, List.lookup, processTracks],
   (output_clip_name_duration exFbx10 exVrm {} ⟨"vrmAnimation", 7, []⟩
      (by simp [retargetAnimation, findByName, computeHipsScale, exFbx10, exClip10, exLookup,
         exVrm, exHumanoid, exBones, hipsNodeEx, jsFalsyQ, List.lookup, processTracks])).1,
   (output_clip_name_duration exFbx10 exVrm {} ⟨"vrmAnimation", 7, []⟩
      (by simp [retargetAnimation, findByName, computeHipsScale, exFbx10, exClip10, exLookup,
         exVrm, exHumanoid, exBones, hipsNodeEx, jsFalsyQ, List.lookup, processTracks])).2⟩

/-- C2 (refuting evaluation): the rotation branch writes the transformed
quaternions back into the located source clip's own values array, so the
caller's clip is mutated in place: after the call the spine track of the
source clip holds (0, 0, 1, 0) instead of its original sample (0, 1, 0, 0). -/
theorem source_clip_mutated :
    (retargetAnimation exFbx2 exVrm {}).finalClipTracks.map (fun t => t.values)
        = [quatsToFlat [⟨0, 0, 1, 0⟩]]
      ∧ exClip2.tracks.map (fun t => t.values) = [quatsToFlat [⟨0, 1, 0, 0⟩]]
      ∧ (retargetAnimation exFbx2 exVrm {}).finalClipTracks.map (fun t => t.values)
          ≠ exClip2.tracks.map (fun t => t.values) := by
  refine ⟨?_, rfl, ?_⟩ <;>
    simp [retargetAnimation, findByName, computeHipsScale, exFbx2, exClip2, exLookup,
      processTracks, retargetTrack, resolveVrmNodeName, mergedBoneMap, mixamoVRMRigMap,
      mixamoRigNameOf, propertyNameOf, jsSplitDot, splitOnCharAux, exVrm, exHumanoid, exBones,
      trackSpineRot, hipsNodeEx, spineNodeEx, qIdEx, qXEx, jsFalsyQ, isV0, List.lookup,
      processRotValues, quatsToFlat, mapWithIndex, Quat.mul, Quat.conjugate, Quat.identityQ]

/-- C8 (refuting evaluation): the neck track references a joint that does not
exist in the FBX rig, yet it is not skipped: the output clip has two tracks,
and the second was transformed with the rest rotations left in the shared
scratch quaternions by the preceding spine track (its identity sample
(0, 0, 0, 1) comes out as (-1, 0, 0, 0), the conjugate of the spine joint's
rest-world rotation). -/
theorem stale_rest_pose_track_emitted :
    exFbx8.getObjectByName "mixamorigNeck" = none
      ∧ ((retargetAnimation exFbx8 exVrm {}).result.map fun c =>
            c.tracks.map (fun t => t.values))
          = some [quatsToFlat [⟨0, 0, 1, 0⟩], quatsToFlat [⟨-1, 0, 0, 0⟩]]
      ∧ quatsToFlat [⟨-1, 0, 0, 0⟩]
          = quatsToFlat [(Quat.identityQ.mul ⟨0, 0, 0, 1⟩).mul
              spineNodeEx.worldQuaternion.conjugate] := by
  refine ⟨?_, ?_, ?_⟩ <;>
    simp [retargetAnimation, findByName, computeHipsScale, exFbx8, exClip8, exLookup,
      processTracks, retargetTrack, resolveVrmNodeName, mergedBoneMap, mixamoVRMRigMap,
      mixamoRigNameOf, propertyNameOf, jsSplitDot, splitOnCharAux, exVrm, exHumanoid, exBones,
      trackSpineRot, trackNeckRot, hipsNodeEx, spineNodeEx, qIdEx, qXEx, jsFalsyQ, isV0,
      List.lookup, processRotValues, quatsToFlat, mapWithIndex, Quat.mul, Quat.conjugate,
      Quat.identityQ]

/-- C3 (refuting evaluation): on a rig whose hips node has local y 2 but
world-offset height 1, the code returns 3/2 (it divides by the local
position.y) while the spec's both-sides world-offset measurement would give
3; the two disagree. -/
theorem hips_scale_counterexample :
    computeHipsScale exFbx3 exVrm3 = some (3 / 2)
      ∧ computeHipsScaleSpec exFbx3 exVrm3 = some 3
      ∧ (3 / 2 : ℚ) ≠ 3 := by
  refine ⟨?_, ?_, by norm_num⟩
  · simp [computeHipsScale, exFbx3, exVrm3, hipsNodeOffsetEx, jsFalsyQ]
  · simp [computeHipsScaleSpec, exFbx3, exVrm3, hipsNodeOffsetEx]

/-- C3 (amended): when the hips joints resolve and neither measured quantity
is zero, the scale equals the target hip height — the world-y offset of the
VRM hips from the VRM scene root, in absolute value — divided by the SOURCE
HIPS NODE'S LOCAL position.y (the source rig's world positions are never
consulted). -/
theorem hips_scale_formula
    (fbx : FBXAsset) (vrm : VRM) (n : RigNode) (b : VRMBone)
    (hm : fbx.getObjectByName "mixamorigHips" = some n)
    (hb : (vrm.humanoid.bind fun h => h.getNormalizedBoneNode "hips") = some b)
    (hny : n.position.y ≠ 0) (hby : b.worldPositionY ≠ 0) :
    computeHipsScale fbx vrm
      = some (abs (b.worldPositionY - vrm.sceneWorldPositionY) / n.position.y) := by
  simp [computeHipsScale, hm, hb, jsFalsyQ, hny, hby]

/-- Witness for the amended C3 at the offset-hips rig. -/
theorem hips_scale_formula_witness :
    exFbx3.getObjectByName "mixamorigHips" = some hipsNodeOffsetEx
  ∧ (exVrm3.humanoid.bind fun h => h.getNormalizedBoneNode "hips") = some ⟨"Hips", 3⟩
  ∧ hipsNodeOffsetEx.position.y ≠ 0
  ∧ (VRMBone.mk "Hips" 3).worldPositionY ≠ 0
  ∧ computeHipsScale exFbx3 exVrm3
      = some (abs ((VRMBone.mk "Hips" 3).worldPositionY - exVrm3.sceneWorldPositionY)
          / hipsNodeOffsetEx.position.y) :=
  ⟨by simp [exFbx3],
   by simp [exVrm3],
   by norm_num [hipsNodeOffsetEx],
   by norm_num,
   hips_scale_formula exFbx3 exVrm3 hipsNodeOffsetEx ⟨"Hips", 3⟩
     (by simp [exFbx3]) (by simp [exVrm3])
     (by norm_num [hipsNodeOffsetEx]) (by norm_num)⟩

/-- C4 (refuting evaluation): under metaVersion "0", the raw sample
(1, 2, 3, 4) — stored as x, y, z, w — comes out as (-1, 2, -3, 4): the even
indices 0 and 2, i.e. the x and z components, are negated, which differs
from negating the w and y components as the claim states. -/
theorem rotation_correction_counterexample :
    ((retargetAnimation exFbx4 exVrm0 {}).result.map fun c =>
        c.tracks.map (fun t => t.values))
        = some [[-1, 2, -3, 4]]
      ∧ negateWYComponents [1, 2, 3, 4] = [1, -2, 3, -4]
      ∧ ([-1, 2, -3, 4] : List ℚ) ≠ [1, -2, 3, -4] := by
  refine ⟨?_, ?_, by norm_num⟩
  · simp [retargetAnimation, findByName, computeHipsScale, exFbx4, exClip4, exLookupIdSpine,
      processTracks, retargetTrack, resolveVrmNodeName, mergedBoneMap, mixamoVRMRigMap,
      mixamoRigNameOf, propertyNameOf, jsSplitDot, splitOnCharAux, exVrm0, exVrm, exHumanoid,
      exBones, trackSpine1234, hipsNodeEx, spineNodeIdEx, qIdEx, jsFalsyQ, isV0, List.lookup,
      processRotValues, quatsToFlat, mapWithIndex, Quat.mul, Quat.conjugate, Quat.identityQ]
  · simp [negateWYComponents, mapWithIndex]

/-- C4 (amended): the coordinate-convention correction on an emitted
rotation track negates the x and z components (the even-indexed components
0 and 2 in the stored order x, y, z, w) of every keyframe when the target
uses metaVersion "0", and leaves every component unchanged otherwise. -/
theorem rotation_convention_correction
    (fbx : FBXAsset) (vrm : VRM) (boneMap : String → Option String)
    (lw : Bool) (s : ℚ) (st : ScratchState) (t : KeyframeTrack)
    (nm : String) (qs : List Quat)
    (hkind : t.kind = TrackKind.quaternion)
    (hres : resolveVrmNodeName vrm boneMap t = some nm)
    (hmut : (retargetTrack fbx vrm boneMap lw s st t).mutated.values = quatsToFlat qs) :
    ∃ out, (retargetTrack fbx vrm boneMap lw s st t).output = some out
      ∧ out.values = quatsToFlat (qs.map fun q =>
          if isV0 vrm then ⟨-q.x, q.y, -q.z, q.w⟩ else q) := by
  simp only [retargetTrack, hres, hkind] at hmut ⊢
  refine ⟨_, rfl, ?_⟩
  rw [hmut]
  exact mapWithIndex_quat_even (isV0 vrm) qs 0 rfl

/-- Witness for the amended C4 at the raw (1, 2, 3, 4) spine track. -/
theorem rotation_convention_correction_witness :
    trackSpine1234.kind = TrackKind.quaternion
  ∧ resolveVrmNodeName exVrm0 (mergedBoneMap []) trackSpine1234 = some "SpineN"
  ∧ (retargetTrack exFbx4 exVrm0 (mergedBoneMap []) true 1
      ⟨Quat.identityQ, Quat.identityQ⟩ trackSpine1234).mutated.values
      = quatsToFlat [⟨1, 2, 3, 4⟩]
  ∧ ∃ out, (retargetTrack exFbx4 exVrm0 (mergedBoneMap []) true 1
        ⟨Quat.identityQ, Quat.identityQ⟩ trackSpine1234).output = some out
      ∧ out.values = quatsToFlat ([⟨1, 2, 3, 4⟩].map fun q =>
          if isV0 exVrm0 then ⟨-q.x, q.y, -q.z, q.w⟩ else q) :=
  ⟨rfl,
   by simp [resolveVrmNodeName, mergedBoneMap, mixamoVRMRigMap, mixamoRigNameOf,
      jsSplitDot, splitOnCharAux, exVrm0, exVrm, exHumanoid, exBones, trackSpine1234,
      List.lookup],
   by simp [retargetTrack, resolveVrmNodeName, mergedBoneMap, mixamoVRMRigMap,
      mixamoRigNameOf, jsSplitDot, splitOnCharAux, exVrm0, exVrm, exHumanoid, exBones,
      trackSpine1234, exFbx4, exLookupIdSpine, spineNodeIdEx, qIdEx, List.lookup,
      processRotValues, quatsToFlat, Quat.mul, Quat.conjugate],
   rotation_convention_correction exFbx4 exVrm0 (mergedBoneMap []) true 1
     ⟨Quat.identityQ, Quat.identityQ⟩ trackSpine1234 "SpineN" [⟨1, 2, 3, 4⟩]
     rfl
     (by simp [resolveVrmNodeName, mergedBoneMap, mixamoVRMRigMap, mixamoRigNameOf,
        jsSplitDot, splitOnCharAux, exVrm0, exVrm, exHumanoid, exBones, trackSpine1234,
        List.lookup])
     (by simp [retargetTrack, resolveVrmNodeName, mergedBoneMap, mixamoVRMRigMap,
        mixamoRigNameOf, jsSplitDot, splitOnCharAux, exVrm0, exVrm, exHumanoid, exBones,
        trackSpine1234, exFbx4, exLookupIdSpine, spineNodeIdEx, qIdEx, List.lookup,
        processRotValues, quatsToFlat, Quat.mul, Quat.conjugate])⟩

/-- C5 (refuting evaluation): with one mapped track and one unmapped track
(and warnings enabled), the output clip has 1 of the 2 source tracks, but
the warning list is empty — no UnmappedBone warning is produced for the
dropped track, because the warning branch fires only when the bone map DID
resolve (`logWarnings && vrmBoneName`). -/
theorem unmapped_track_counterexample :
    mergedBoneMap [] "unknownBone" = none
      ∧ ((retargetAnimation exFbx5 exVrm {}).result.map fun c => c.tracks.length)
          = some 1
      ∧ exClip5.tracks.length = 2
      ∧ (retargetAnimation exFbx5 exVrm {}).warnings = [] := by
  refine ⟨by simp [mergedBoneMap, mixamoVRMRigMap, List.lookup], ?_, rfl, ?_⟩ <;>
    simp [retargetAnimation, findByName, computeHipsScale, exFbx5, exClip5, exLookup,
      processTracks, retargetTrack, resolveVrmNodeName, mergedBoneMap, mixamoVRMRigMap,
      mixamoRigNameOf, propertyNameOf, jsSplitDot, splitOnCharAux, exVrm, exHumanoid, exBones,
      trackSpineRot, trackUnknownRot, hipsNodeEx, spineNodeEx, qIdEx, qXEx, jsFalsyQ, isV0,
      List.lookup, processRotValues, quatsToFlat, mapWithIndex, Quat.mul, Quat.conjugate,
      Quat.identityQ]

theorem retargetTrack_unmapped
    (fbx : FBXAsset) (vrm : VRM) (bm : String → Option String)
    (lw : Bool) (s : ℚ) (st : ScratchState) (t : KeyframeTrack)
    (h : bm (mixamoRigNameOf t) = none) :
    (retargetTrack fbx vrm bm lw s st t).output = none
      ∧ (retargetTrack fbx vrm bm lw s st t).warnings = [] := by
  have hres : resolveVrmNodeName vrm bm t = none := by
    simp [resolveVrmNodeName, h]
  simp [retargetTrack, hres, h]

theorem retargetTrack_resolved_strict
    (fbx : FBXAsset) (vrm : VRM) (bm : String → Option String)
    (lw : Bool) (s : ℚ) (st : ScratchState) (t : KeyframeTrack) (nm : String)
    (hres : resolveVrmNodeName vrm bm t = some nm)
    (hkind : t.kind = TrackKind.quaternion ∨ t.kind = TrackKind.vector) :
    (retargetTrack fbx vrm bm lw s st t).output.isSome = true
      ∧ (retargetTrack fbx vrm bm lw s st t).warnings = [] := by
  rcases hkind with h | h <;> simp [retargetTrack, hres, h]

theorem resolve_some_mapped (vrm : VRM) (bm : String → Option String)
    (t : KeyframeTrack) (nm : String)
    (h : resolveVrmNodeName vrm bm t = some nm) :
    (bm (mixamoRigNameOf t)).isNone = false := by
  cases hb : bm (mixamoRigNameOf t) with
  | none => simp [resolveVrmNodeName, hb] at h
  | some b => rfl

theorem processTracks_good
    (fbx : FBXAsset) (vrm : VRM) (bm : String → Option String) (lw : Bool) (s : ℚ)
    (ts : List KeyframeTrack)
    (hgood : ∀ t ∈ ts, bm (mixamoRigNameOf t) = none
        ∨ ((resolveVrmNodeName vrm bm t).isSome
            ∧ (t.kind = TrackKind.quaternion ∨ t.kind = TrackKind.vector))) :
    ∀ st : ScratchState,
      (processTracks fbx vrm bm lw s st ts).outputs.length
          + (ts.filter fun t => (bm (mixamoRigNameOf t)).isNone).length = ts.length
        ∧ (processTracks fbx vrm bm lw s st ts).warnings = [] := by
  induction ts with
  | nil => intro st; simp [processTracks]
  | cons t ts ih =>
    intro st
    have ht := hgood t (List.mem_cons_self t ts)
    have ihs := ih (fun u hu => hgood u (List.mem_cons_of_mem t hu))
      (retargetTrack fbx vrm bm lw s st t).scratch
    have h1 := ihs.1
    rcases ht with hm | ⟨hresS, hkind⟩
    · have hu := retargetTrack_unmapped fbx vrm bm lw s st t hm
      constructor
      · simp [processTracks, hu.1, List.filter_cons, hm]
        omega
      · simp [processTracks, hu.2, ihs.2]
    · obtain ⟨nm, hnm⟩ := Option.isSome_iff_exists.mp hresS
      have hr := retargetTrack_resolved_strict fbx vrm bm lw s st t nm hnm hkind
      have hmapped := resolve_some_mapped vrm bm t nm hnm
      obtain ⟨out, hout⟩ := Option.isSome_iff_exists.mp hr.1
      constructor
      · simp [processTracks, hout, List.filter_cons, hmapped]
        omega
      · simp [processTracks, hr.2, ihs.2]

/-- C5 (amended): when every track of the located clip either has no bone
map entry or fully resolves with a quaternion/vector kind, the call
succeeds, the output clip has exactly sourceTrackCount minus the number of
unmapped tracks, processing having continued past each unmapped track — but
the warning list is empty: the code emits NO warning at all for unmapped
bones (the per-track warning fires only for mapped bones whose target joint
is missing). -/
theorem unmapped_tracks_dropped_silently
    (fbx : FBXAsset) (vrm : VRM) (opts : RetargetingOptions)
    (clip : AnimationClip) (s : ℚ)
    (hclip : findByName fbx.animations opts.animationClipName = some clip)
    (hscale : computeHipsScale fbx vrm = some s)
    (hgood : ∀ t ∈ clip.tracks,
        mergedBoneMap opts.customBoneMap (mixamoRigNameOf t) = none
        ∨ ((resolveVrmNodeName vrm (mergedBoneMap opts.customBoneMap) t).isSome
            ∧ (t.kind = TrackKind.quaternion ∨ t.kind = TrackKind.vector))) :
    ∃ c, (retargetAnimation fbx vrm opts).result = some c
      ∧ c.tracks.length = clip.tracks.length
          - (clip.tracks.filter fun t =>
              (mergedBoneMap opts.customBoneMap (mixamoRigNameOf t)).isNone).length
      ∧ (retargetAnimation fbx vrm opts).warnings = [] := by
  have h := processTracks_good fbx vrm (mergedBoneMap opts.customBoneMap)
    opts.logWarnings s clip.tracks hgood ⟨Quat.identityQ, Quat.identityQ⟩
  have h1 := h.1
  simp only [retargetAnimation, hclip, hscale]
  refine ⟨_, rfl, ?_, h.2⟩
  show (processTracks fbx vrm (mergedBoneMap opts.customBoneMap) opts.logWarnings s
      ⟨Quat.identityQ, Quat.identityQ⟩ clip.tracks).outputs.length = _
  omega

/-- Witness for the amended C5 at the two-track clip with one unmapped bone. -/
theorem unmapped_tracks_dropped_silently_witness :
    findByName exFbx5.animations ({} : RetargetingOptions).animationClipName = some exClip5
  ∧ computeHipsScale exFbx5 exVrm = some (3 / 2)
  ∧ ∃ c, (retargetAnimation exFbx5 exVrm {}).result = some c
      ∧ c.tracks.length = exClip5.tracks.length
          - (exClip5.tracks.filter fun t =>
              (mergedBoneMap [] (mixamoRigNameOf t)).isNone).length
      ∧ (retargetAnimation exFbx5 exVrm {}).warnings = [] :=
  ⟨by simp [findByName, exFbx5, exClip5],
   by simp [computeHipsScale, exFbx5, exLookup, exVrm, exHumanoid, exBones, hipsNodeEx,
      jsFalsyQ, List.lookup]; norm_num,
   unmapped_tracks_dropped_silently exFbx5 exVrm {} exClip5 (3 / 2)
     (by simp [findByName, exFbx5, exClip5])
     (by simp [computeHipsScale, exFbx5, exLookup, exVrm, exHumanoid, exBones, hipsNodeEx,
        jsFalsyQ, List.lookup]; norm_num)
     (by
       intro t ht
       simp only [exClip5] at ht
       rcases List.mem_cons.mp ht with rfl | ht2
       · right
         refine ⟨?_, Or.inl rfl⟩
         simp [resolveVrmNodeName, mergedBoneMap, mixamoVRMRigMap, mixamoRigNameOf,
           jsSplitDot, splitOnCharAux, exVrm, exHumanoid, exBones, trackSpineRot, List.lookup]
       · rcases List.mem_cons.mp ht2 with rfl | h3
         · left
           simp [mergedBoneMap, mixamoVRMRigMap, mixamoRigNameOf, jsSplitDot,
             splitOnCharAux, trackUnknownRot, List.lookup]
         · exact absurd h3 (List.not_mem_nil t))⟩

/-- C6 (refuting evaluation): both rigs have their hips joint and both
spec-measured hip heights are nonzero (the spec-side scale is 1/90), yet the
code's scale computation fails and the whole call returns an empty result:
the code tests the RAW world y of the VRM hips (here 0, hence JS-falsy), not
the computed height |0 - (-1)| = 1. -/
theorem scale_failure_counterexample :
    (exFbx6.getObjectByName "mixamorigHips").isSome = true
  ∧ ((exVrm6.humanoid.bind fun h => h.getNormalizedBoneNode "hips").isSome) = true
  ∧ computeHipsScaleSpec exFbx6 exVrm6 = some (1 / 90)
  ∧ computeHipsScale exFbx6 exVrm6 = none
  ∧ (retargetAnimation exFbx6 exVrm6 {}).result = none := by
  refine ⟨?_, ?_, ?_, ?_, ?_⟩ <;>
    simp [retargetAnimation, findByName, computeHipsScale, computeHipsScaleSpec,
      exFbx6, exVrm6, exLookup, hipsNodeEx, qIdEx, jsFalsyQ, trackSpineRot]

/-- C6 (amended): the scale computation fails exactly when the hips joint is
missing on either rig, or the SOURCE hips node's local position.y is zero,
or the TARGET hips bone's raw world y coordinate is zero (the computed
height |hipsY - rootY| is never what is tested; over ℚ the float cases NaN
— which also fails — and Infinity — which does not — are not representable);
whenever it fails, the whole call returns an empty result, even for clips
containing only rotation tracks. -/
theorem scale_failure_characterization
    (fbx : FBXAsset) (vrm : VRM) (opts : RetargetingOptions) :
    (computeHipsScale fbx vrm = none ↔
        fbx.getObjectByName "mixamorigHips" = none
        ∨ (∃ n, fbx.getObjectByName "mixamorigHips" = some n ∧ n.position.y = 0)
        ∨ (vrm.humanoid.bind fun h => h.getNormalizedBoneNode "hips") = none
        ∨ (∃ b, (vrm.humanoid.bind fun h => h.getNormalizedBoneNode "hips") = some b
            ∧ b.worldPositionY = 0))
      ∧ (computeHipsScale fbx vrm = none →
          (retargetAnimation fbx vrm opts).result = none) := by
  constructor
  · cases hm : fbx.getObjectByName "mixamorigHips" with
    | none =>
      cases hb : vrm.humanoid.bind (fun h => h.getNormalizedBoneNode "hips") <;>
        simp [computeHipsScale, jsFalsyQ, hm, hb]
    | some n =>
      cases hb : vrm.humanoid.bind (fun h => h.getNormalizedBoneNode "hips") with
      | none => simp [computeHipsScale, jsFalsyQ, hm, hb]
      | some b =>
        simp [computeHipsScale, jsFalsyQ, hm, hb]
        tauto
  · intro h
    unfold retargetAnimation
    cases hc : findByName fbx.animations opts.animationClipName with
    | none => rfl
    | some clip => rw [h]

/-- Witness for the amended C6 at the zero-world-y VRM hips rig. -/
theorem scale_failure_characterization_witness :
    (computeHipsScale exFbx6 exVrm6 = none ↔
        exFbx6.getObjectByName "mixamorigHips" = none
        ∨ (∃ n, exFbx6.getObjectByName "mixamorigHips" = some n ∧ n.position.y = 0)
        ∨ (exVrm6.humanoid.bind fun h => h.getNormalizedBoneNode "hips") = none
        ∨ (∃ b, (exVrm6.humanoid.bind fun h => h.getNormalizedBoneNode "hips") = some b
            ∧ b.worldPositionY = 0))
      ∧ (computeHipsScale exFbx6 exVrm6 = none →
          (retargetAnimation exFbx6 exVrm6 {}).result = none) :=
  scale_failure_characterization exFbx6 exVrm6 {}

/-- C7: every 3-component sample of a retargeted position track has each
component multiplied by the scale factor, with x and z (indices 0 and 2 of
each 3-tuple) additionally negated under metaVersion "0" and y never
sign-flipped; concretely, with source hip height 90 and target hip height
135 the resolved scale is 3/2 = 1.5, and the sample (0, 10, 0) maps to
(0, 15, 0) under the modern convention and under the older one alike. -/
theorem position_track_retarget
    (fbx : FBXAsset) (vrm : VRM) (boneMap : String → Option String)
    (lw : Bool) (s : ℚ) (st : ScratchState) (t : KeyframeTrack)
    (nm : String) (vs : List Vec3)
    (hkind : t.kind = TrackKind.vector)
    (hres : resolveVrmNodeName vrm boneMap t = some nm)
    (hvals : t.values = vec3sToFlat vs) :
    (∃ out, (retargetTrack fbx vrm boneMap lw s st t).output = some out
      ∧ out.values = vec3sToFlat (vs.map fun p =>
          if isV0 vrm then ⟨-p.x * s, p.y * s, -p.z * s⟩
          else ⟨p.x * s, p.y * s, p.z * s⟩)
      ∧ out.times = t.times)
    ∧ computeHipsScale exFbx7 exVrm = some (3 / 2)
    ∧ ((retargetAnimation exFbx7 exVrm {}).result.map fun c =>
        c.tracks.map (fun u => u.values)) = some [[0, 15, 0]]
    ∧ ((retargetAnimation exFbx7 exVrm0 {}).result.map fun c =>
        c.tracks.map (fun u => u.values)) = some [[0, 15, 0]] := by
  refine ⟨?_, ?_, ?_, ?_⟩
  · simp only [retargetTrack, hres, hkind]
    refine ⟨_, rfl, ?_, rfl⟩
    rw [hvals]
    exact mapWithIndex_vec3_scale (isV0 vrm) s vs 0 rfl
  · simp [computeHipsScale, exFbx7, exLookup, exVrm, exHumanoid, exBones, hipsNodeEx,
      jsFalsyQ, List.lookup]
    norm_num
  · simp [retargetAnimation, findByName, computeHipsScale, exFbx7, exClip7, exLookup,
      processTracks, retargetTrack, resolveVrmNodeName, mergedBoneMap, mixamoVRMRigMap,
      mixamoRigNameOf, propertyNameOf, jsSplitDot, splitOnCharAux, exVrm, exHumanoid,
      exBones, trackHipsPos, hipsNodeEx, qIdEx, jsFalsyQ, isV0, List.lookup, mapWithIndex]
    norm_num
  · simp [retargetAnimation, findByName, computeHipsScale, exFbx7, exClip7, exLookup,
      processTracks, retargetTrack, resolveVrmNodeName, mergedBoneMap, mixamoVRMRigMap,
      mixamoRigNameOf, propertyNameOf, jsSplitDot, splitOnCharAux, exVrm0, exVrm,
      exHumanoid, exBones, trackHipsPos, hipsNodeEx, qIdEx, jsFalsyQ, isV0, List.lookup,
      mapWithIndex]
    norm_num

/-- Witness for C7 at the hips position track with sample (0, 10, 0). -/
theorem position_track_retarget_witness :
    trackHipsPos.kind = TrackKind.vector
  ∧ resolveVrmNodeName exVrm (mergedBoneMap []) trackHipsPos = some "Hips"
  ∧ trackHipsPos.values = vec3sToFlat [⟨0, 10, 0⟩]
  ∧ ∃ out, (retargetTrack exFbx7 exVrm (mergedBoneMap []) true (3 / 2)
        ⟨Quat.identityQ, Quat.identityQ⟩ trackHipsPos).output = some out
      ∧ out.values = vec3sToFlat (([(⟨0, 10, 0⟩ : Vec3)]).map fun p =>
          if isV0 exVrm then ⟨-p.x * (3 / 2), p.y * (3 / 2), -p.z * (3 / 2)⟩
          else ⟨p.x * (3 / 2), p.y * (3 / 2), p.z * (3 / 2)⟩)
      ∧ out.times = trackHipsPos.times :=
  ⟨rfl,
   by simp [resolveVrmNodeName, mergedBoneMap, mixamoVRMRigMap, mixamoRigNameOf,
      jsSplitDot, splitOnCharAux, exVrm, exHumanoid, exBones, trackHipsPos, List.lookup],
   rfl,
   (position_track_retarget exFbx7 exVrm (mergedBoneMap []) true (3 / 2)
      ⟨Quat.identityQ, Quat.identityQ⟩ trackHipsPos "Hips" [⟨0, 10, 0⟩]
      rfl
      (by simp [resolveVrmNodeName, mergedBoneMap, mixamoVRMRigMap, mixamoRigNameOf,
         jsSplitDot, splitOnCharAux, exVrm, exHumanoid, exBones, trackHipsPos, List.lookup])
      rfl).1⟩
